import Mathlib

/-
  Verification development for the Noter practice-session tracker
  (source: src/condb.py).  The Python source is shallowly embedded:
  pure functions become Lean functions, the stateful helpers
  (save_session, PracticeTimer, calculate_streak's in-place sort)
  become explicit state-passing functions, and fallible paths return
  Option.  Machine dates are modelled by proleptic-Gregorian ordinals,
  exactly as CPython's datetime.date.toordinal computes them.
-/

/-! ## Calendar dates (models datetime.date) -/

/-- A calendar date as held by a parsed `datetime.date`: year, month, day. -/
structure Date where
  year : Nat
  month : Nat
  day : Nat
deriving DecidableEq, Repr

/-- Gregorian leap-year test, as in CPython datetime._is_leap. -/
def isLeap (y : Nat) : Bool :=
  y % 4 == 0 && (y % 100 != 0 || y % 400 == 0)

/-- Days in a month, as in CPython datetime._days_in_month. -/
def daysInMonth (y m : Nat) : Nat :=
  if m = 2 then (if isLeap y then 29 else 28)
  else if m = 4 ∨ m = 6 ∨ m = 9 ∨ m = 11 then 30
  else 31

/-- Cumulative days before a month, as in CPython datetime._days_before_month. -/
def daysBeforeMonth (y m : Nat) : Nat :=
  let base :=
    match m with
    | 1 => 0 | 2 => 31 | 3 => 59 | 4 => 90 | 5 => 120 | 6 => 151
    | 7 => 181 | 8 => 212 | 9 => 243 | 10 => 273 | 11 => 304 | _ => 334
  base + (if 2 < m ∧ isLeap y then 1 else 0)

/-- Proleptic Gregorian ordinal of a date (datetime.date.toordinal:
day 1 is 0001-01-01).  Date subtraction in the source
(`now.date() - session_date.date()`).days is the difference of ordinals. -/
def Date.toOrdinal (d : Date) : Nat :=
  let y := d.year - 1
  365 * y + y / 4 + y / 400 - y / 100 + daysBeforeMonth d.year d.month + d.day

/-- Signed day difference `a - b` between two dates, in days
(models `(a - b).days` on datetime.date values). -/
def Date.sub (a b : Date) : Int :=
  (a.toOrdinal : Int) - (b.toOrdinal : Int)

/-- Lexicographic comparison of dates; for the zero-padded `YYYY-MM-DD`
strings stored in session records, Python string `<=` is exactly this
lexicographic order on (year, month, day). -/
def dateKeyLe (d e : Date) : Bool :=
  if d.year = e.year then
    (if d.month = e.month then decide (d.day ≤ e.day)
     else decide (d.month ≤ e.month))
  else decide (d.year ≤ e.year)

/-! ## Date-string parsing (models datetime.strptime(s, "%Y-%m-%d")) -/

/-- Split a character list at every dash, keeping empty groups,
like Python str.split("-"). -/
def splitOnDash : List Char → List (List Char)
  | [] => [[]]
  | c :: rest =>
    if c = '-' then [] :: splitOnDash rest
    else
      match splitOnDash rest with
      | [] => [[c]]
      | g :: gs => (c :: g) :: gs

/-- Numeric value of a list of decimal digit characters. -/
def digitsToNat (cs : List Char) : Nat :=
  cs.foldl (fun a c => 10 * a + (c.toNat - 48)) 0

/-- Parse a string in strptime's "%Y-%m-%d" format: exactly four digits
for the year, one or two digits for month and day, dashes in between,
nothing else; then datetime's range validation (year at least 1,
month 1..12, day 1..days in month).  Returns none exactly when
strptime/datetime would raise. -/
def parseDate (s : String) : Option Date :=
  match splitOnDash s.toList with
  | [ys, ms, ds] =>
    if ys.length = 4 ∧ ys.all Char.isDigit ∧
       1 ≤ ms.length ∧ ms.length ≤ 2 ∧ ms.all Char.isDigit ∧
       1 ≤ ds.length ∧ ds.length ≤ 2 ∧ ds.all Char.isDigit then
      let y := digitsToNat ys
      let m := digitsToNat ms
      let d := digitsToNat ds
      if 1 ≤ y ∧ 1 ≤ m ∧ m ≤ 12 ∧ 1 ≤ d ∧ d ≤ daysInMonth y m then
        some ⟨y, m, d⟩
      else none
    else none
  | _ => none

/-! ## JSON-ish session records (for load_sessions / save_session) -/

/-- A string-valued field of a session dict: the key may be absent,
present with value None, or present with a string value. -/
inductive SField
  | absent
  | null
  | str (s : String)
deriving DecidableEq, Repr

/-- A stored session record with the keys the source reads or writes.
`duration` is kept abstract as a rational number of seconds. -/
structure SessionRec where
  start_time : SField := .absent
  end_time : SField := .absent
  duration : Option ℚ := none
  date : SField := .absent
  composer : SField := .absent
  work : SField := .absent
  movement : SField := .absent
  notes : SField := .absent
  week : Option Int := none
  month : Option Nat := none
  year : Option Nat := none
deriving DecidableEq, Repr

/-- Python dict.setdefault(k, d): fills the default only when the key
is absent; a present None or empty string is kept. -/
def SField.setdefault (f : SField) (d : String) : SField :=
  match f with
  | .absent => .str d
  | x => x

/-- Python `session.get(k, "Unknown") or "Unknown"`: any falsy value
(absent key, None, empty string) becomes "Unknown". -/
def SField.orUnknown (f : SField) : SField :=
  match f with
  | .str s => if s = "" then .str "Unknown" else .str s
  | _ => .str "Unknown"

/-- Python `session.get("notes", "")`: absent becomes the empty string,
anything present (including None) is kept. -/
def SField.getNotes (f : SField) : SField :=
  match f with
  | .absent => .str ""
  | x => x

/-- The per-record normalization loop of load_sessions (the four
setdefault calls applied to each decoded record). -/
def normalizeLoaded (s : SessionRec) : SessionRec :=
  { s with
    composer := s.composer.setdefault "Unknown",
    work := s.work.setdefault "Unknown",
    movement := s.movement.setdefault "Unknown",
    notes := s.notes.setdefault "" }

/-- load_sessions: `none` stands for a missing or undecodable sessions
file (the except branches return []); `some data` is the decoded JSON
array, each record passed through the setdefault loop. -/
def load_sessions : Option (List SessionRec) → List SessionRec
  | none => []
  | some data => data.map normalizeLoaded

/-! ## ISO week number (datetime.date.isocalendar()[1]) -/

/-- Ordinal of the Monday starting ISO week 1 of a year
(CPython datetime._isoweek1monday). -/
def isoweek1monday (year : Nat) : Int :=
  let firstday : Int := (Date.toOrdinal ⟨year, 1, 1⟩ : Nat)
  let firstweekday : Int := (firstday + 6) % 7
  let week1monday := firstday - firstweekday
  if 3 < firstweekday then week1monday + 7 else week1monday

/-- ISO week number of a date (datetime.date.isocalendar()[1],
CPython's branch structure). -/
def isoWeekNumber (d : Date) : Int :=
  let today : Int := (d.toOrdinal : Nat)
  let week := Int.fdiv (today - isoweek1monday d.year) 7
  if week < 0 then
    Int.fdiv (today - isoweek1monday (d.year - 1)) 7 + 1
  else if 52 ≤ week ∧ isoweek1monday (d.year + 1) ≤ today then 1
  else week + 1

/-- Result of save_session: the (possibly unchanged) sessions list, the
session dict after any in-place mutation, and the contents written to
the backing file (`none` when no write happened). -/
structure SaveResult where
  sessions : List SessionRec
  session : SessionRec
  wrote : Option (List SessionRec)
deriving DecidableEq, Repr

/-- save_session (module level, lines 41-68): defaults the hierarchy
fields in place, parses session["date"] with strptime("%Y-%m-%d"),
derives week/month/year, appends to the list and rewrites the file.
Any exception (missing "date" key, None date, unparseable string) is
caught by the bare `except Exception`, so the list and file are left
untouched; the four default assignments precede the parse and thus
survive on the session dict itself. -/
def save_session (sessions : List SessionRec) (session : SessionRec) : SaveResult :=
  let s1 := { session with
    composer := session.composer.orUnknown,
    work := session.work.orUnknown,
    movement := session.movement.orUnknown,
    notes := session.notes.getNotes }
  match (match s1.date with | .str ds => parseDate ds | _ => none) with
  | none => ⟨sessions, s1, none⟩
  | some d =>
    let s2 := { s1 with
      week := some (isoWeekNumber d),
      month := some d.month,
      year := some d.year }
    ⟨sessions ++ [s2], s2, some (sessions ++ [s2])⟩

/-- True when the record's "date" entry is a string that strptime
accepts; save_session reaches the append/write only in that case. -/
def dateParses (session : SessionRec) : Bool :=
  match session.date with
  | .str ds => (parseDate ds).isSome
  | _ => false

/-! ## Statistics engine (calculate_period_stats, calculate_progress,
generate_progress_bar, calculate_streak) -/

/-- A session as consulted by the statistics functions: the parsed
calendar date (datetime.strptime(session["date"], "%Y-%m-%d").date())
and the duration in seconds. -/
structure StatSession where
  date : Date
  duration : ℚ
deriving DecidableEq, Repr

/-- The per-session condition of the filtering loop of
calculate_period_stats (lines 82-100): the if/elif chain on the period
type; `now` stands for datetime.now().date().  An unrecognized period
type appends nothing. -/
def periodPred (period_type : String) (now : Date) (s : StatSession) : Bool :=
  if period_type = "daily" then decide (s.date = now)
  else if period_type = "weekly" then decide (now.sub s.date ≤ 7)
  else if period_type = "monthly" then decide (now.sub s.date ≤ 30)
  else if period_type = "yearly" then decide (now.sub s.date ≤ 365)
  else false

/-- The valid_sessions list built by the filtering loop of
calculate_period_stats. -/
def validSessions (sessions : List StatSession) (period_type : String)
    (now : Date) : List StatSession :=
  sessions.filter (periodPred period_type now)

/-- One step of the stats-dict accumulation: add a duration under a
date key, updating an existing entry or appending a new one (Python
dicts keep insertion order). -/
def addStat : List (Date × ℚ) → Date → ℚ → List (Date × ℚ)
  | [], d, dur => [(d, dur)]
  | (d', v) :: rest, d, dur =>
    if d' = d then (d', v + dur) :: rest else (d', v) :: addStat rest d dur

/-- The aggregation loop of calculate_period_stats (lines 103-110):
sums duration per distinct date over the filtered sessions. -/
def aggregateByDate (l : List StatSession) : List (Date × ℚ) :=
  l.foldl (fun acc s => addStat acc s.date s.duration) []

/-- calculate_period_stats (lines 72-112): early [] for an empty
collection; otherwise filter by period then aggregate per date. -/
def calculate_period_stats (sessions : List StatSession)
    (period_type : String) (now : Date) : List (Date × ℚ) :=
  if sessions.isEmpty then []
  else aggregateByDate (validSessions sessions period_type now)

/-- The hour-goal table of the effective calculate_progress
(lines 392-405; it shadows the earlier minutes-based definition at
lines 115-126, which is never the one called).  dict.get returns 0
for an unrecognized period type. -/
def goalsHours (period_type : String) : ℚ :=
  if period_type = "daily" then 5
  else if period_type = "weekly" then 25
  else if period_type = "monthly" then 100
  else if period_type = "yearly" then 1200
  else 0

/-- calculate_progress (effective definition, lines 392-405): goals in
hours converted to seconds; 0 when the goal lookup misses; otherwise
(total / goal) * 100. -/
def calculate_progress (period_type : String) (total_duration_seconds : ℚ) : ℚ :=
  let goal_seconds := goalsHours period_type * 3600
  if goal_seconds = 0 then 0
  else total_duration_seconds / goal_seconds * 100

/-- Floor of a rational, written out on the numerator and denominator
so that it evaluates by plain integer arithmetic. -/
def ratFloor (q : ℚ) : Int := q.num / q.den

/-- Python int() on a rational: truncation toward zero. -/
def pyInt (q : ℚ) : Int :=
  if 0 ≤ q then ratFloor q else -ratFloor (-q)

/-- Python "%.1f"-style rendering of a rational with one decimal digit
(exact whenever 10 * q is an integer, which covers every use in this
development; ties follow round-half-up). -/
def fmt1 (q : ℚ) : String :=
  let t : Int := ratFloor (10 * q + 1 / 2)
  let sign := if t < 0 then "-" else ""
  let a := t.natAbs
  sign ++ toString (a / 10) ++ "." ++ toString (a % 10)

/-- The glyph cells of the progress bar (lines 131-132):
filled = int(percentage * width / 100) hash marks, width - filled
dots; Python string repetition with a negative count is empty, which
Int.toNat reproduces. -/
def progressBarCells (percentage : ℚ) (width : Int) : List Char :=
  let filled : Int := pyInt (percentage * (width : ℚ) / 100)
  List.replicate filled.toNat '#' ++ List.replicate (width - filled).toNat '.'

/-- generate_progress_bar (lines 129-133): bracketed cells followed by
the percentage to one decimal. -/
def generate_progress_bar (percentage : ℚ) (width : Int) : String :=
  "[" ++ String.mk (progressBarCells percentage width) ++ "] "
    ++ fmt1 percentage ++ "%"

/-- Descending-by-date ordering used by calculate_streak's
sessions.sort(key=lambda x: x["date"], reverse=True); the string key
compares like `dateKeyLe` on the parsed dates. -/
def sessionGe (s t : StatSession) : Prop := dateKeyLe t.date s.date = true

instance : DecidableRel sessionGe :=
  fun _ _ => inferInstanceAs (Decidable (_ = true))

/-- The in-place descending sort performed by calculate_streak. -/
def sortByDateDesc (l : List StatSession) : List StatSession :=
  l.insertionSort sessionGe

/-- The walk of calculate_streak (lines 147-155): previous date,
remaining sessions, accumulated streak; advance on a one-day gap, skip
a same-day repeat, break otherwise. -/
def streakLoop : Int → List StatSession → Nat → Nat
  | _, [], streak => streak
  | prev, s :: rest, streak =>
    if prev - (s.date.toOrdinal : Int) = 1 then
      streakLoop (s.date.toOrdinal : Int) rest (streak + 1)
    else if prev - (s.date.toOrdinal : Int) = 0 then
      streakLoop prev rest streak
    else streak

/-- calculate_streak (lines 136-157).  The function sorts the list it
is handed IN PLACE, so the embedding returns both the result and the
collection as the caller observes it afterwards: 0 and the (empty)
list when empty, else the walk's count plus one and the sorted list. -/
def calculate_streak (sessions : List StatSession) : Nat × List StatSession :=
  match sortByDateDesc sessions with
  | [] => (0, [])
  | first :: rest =>
    (streakLoop (first.date.toOrdinal : Int) (first :: rest) 0 + 1,
     first :: rest)

/-! ## PracticeTimer (lines 161-186), with an injected time source -/

/-- PracticeTimer state: start_time (None while idle), accumulated
total_time in seconds, running flag. -/
structure PracticeTimer where
  start_time : Option ℚ
  total_time : ℚ
  running : Bool
deriving DecidableEq, Repr

/-- PracticeTimer.__init__. -/
def PracticeTimer.init : PracticeTimer := ⟨none, 0, false⟩

/-- PracticeTimer.start at instant `now` (the injected time.time()). -/
def PracticeTimer.start (now : ℚ) (t : PracticeTimer) : PracticeTimer :=
  if t.running then t
  else { t with start_time := some now, running := true }

/-- PracticeTimer.stop at instant `now`. -/
def PracticeTimer.stop (now : ℚ) (t : PracticeTimer) : PracticeTimer :=
  if t.running then
    { t with total_time := t.total_time + (now - t.start_time.getD 0),
             start_time := none,
             running := false }
  else t

/-- PracticeTimer.reset. -/
def PracticeTimer.reset (_ : PracticeTimer) : PracticeTimer := ⟨none, 0, false⟩

/-- PracticeTimer.get_total_time at instant `now`. -/
def PracticeTimer.get_total_time (now : ℚ) (t : PracticeTimer) : ℚ :=
  if t.running then t.total_time + (now - t.start_time.getD 0)
  else t.total_time

/-- PracticeTimer.get_total_time as a state transformer: the method
body only reads fields, so the state component is returned as-is. -/
def PracticeTimer.get_total_time_state (now : ℚ) (t : PracticeTimer) :
    ℚ × PracticeTimer :=
  (t.get_total_time now, t)

/-! ## CountdownTimer.format_time (lines 219-223) -/

/-- Python f"{n:02}" on a non-negative integer: zero-pad to width two,
wider numbers print in full. -/
def pad2 (n : Nat) : String :=
  if n < 10 then "0" ++ toString n else toString n

/-- CountdownTimer.format_time: hours, minutes, seconds each rendered
with f"{..:02}". -/
def CountdownTimer.format_time (seconds : Nat) : String :=
  pad2 (seconds / 3600) ++ ":" ++ pad2 (seconds % 3600 / 60)
    ++ ":" ++ pad2 (seconds % 60)

/-! ## Spec-side definitions (used only to compare claims against the
embedded code) -/

/-- The claim's reading of the weekly/monthly/yearly windows: the
session date lies within `n` days BEFORE `now`, inclusive. -/
abbrev withinDaysBefore (n : Int) (now d : Date) : Prop :=
  0 ≤ now.sub d ∧ now.sub d ≤ n

/-! ## Helper lemmas -/

theorem dateKeyLe_refl (d : Date) : dateKeyLe d d = true := by
  unfold dateKeyLe
  simp

theorem SField.setdefault_eq_ite (f : SField) (d : String) :
    f.setdefault d = if f = .absent then .str d else f := by
  cases f <;> simp [SField.setdefault]

/-! ## Claim theorems -/

/-- C3: the effective calculate_progress divides the total duration in
seconds by the hour goal (daily 5, weekly 25, monthly 100, yearly 1200)
converted to seconds and scales by 100, returning 0 for any
unrecognized period kind; calculate_progress "daily" 18000 = 100 and
calculate_progress "unknown" 100 = 0. -/
theorem calculate_progress_spec :
    (∀ total : ℚ, calculate_progress "daily" total = 100 * total / (5 * 3600))
    ∧ (∀ total : ℚ, calculate_progress "weekly" total = 100 * total / (25 * 3600))
    ∧ (∀ total : ℚ, calculate_progress "monthly" total = 100 * total / (100 * 3600))
    ∧ (∀ total : ℚ, calculate_progress "yearly" total = 100 * total / (1200 * 3600))
    ∧ (∀ p : String, p ≠ "daily" → p ≠ "weekly" → p ≠ "monthly" → p ≠ "yearly" →
        ∀ total : ℚ, calculate_progress p total = 0)
    ∧ calculate_progress "daily" 18000 = 100
    ∧ calculate_progress "unknown" 100 = 0 := by
  refine ⟨?_, ?_, ?_, ?_, ?_, ?_, ?_⟩
  · intro total; simp [calculate_progress, goalsHours]; ring
  · intro total; simp [calculate_progress, goalsHours]; ring
  · intro total; simp [calculate_progress, goalsHours]; ring
  · intro total; simp [calculate_progress, goalsHours]; ring
  · intro p h1 h2 h3 h4 total
    simp [calculate_progress, goalsHours, h1, h2, h3, h4]
  · simp [calculate_progress, goalsHours]; norm_num
  · simp [calculate_progress, goalsHours]

/-- Witness for C3: the unrecognized-period branch evaluated at the
concrete kind "unknown". -/
theorem calculate_progress_spec_witness :
    calculate_progress "unknown" 42 = 0 :=
  calculate_progress_spec.2.2.2.2.1 "unknown"
    (by decide) (by decide) (by decide) (by decide) 42

/-- C5 counterexample: format_time zero-pads the hours field to two
digits (f-string "{h:02}"), so one second renders as "00:00:01",
not "0:00:01" as the claim states. -/
theorem format_time_counterexample :
    CountdownTimer.format_time 1 = "00:00:01"
    ∧ CountdownTimer.format_time 1 ≠ "0:00:01" := by
  constructor <;> decide

/-- C5 (amended): CountdownTimer.format_time renders a non-negative
number of seconds as HH:MM:SS with every field, hours included,
zero-padded to two digits (the hours field still widens past two digits
for 100 hours or more); minutes and seconds stay below 60; one second
formats as "00:00:01". -/
theorem format_time_spec :
    (∀ n : Nat, ∃ h m s, n = 3600 * h + 60 * m + s ∧ m < 60 ∧ s < 60 ∧
      CountdownTimer.format_time n = pad2 h ++ ":" ++ pad2 m ++ ":" ++ pad2 s)
    ∧ (∀ m : Nat, m < 60 → (pad2 m).length = 2)
    ∧ CountdownTimer.format_time 1 = "00:00:01"
    ∧ CountdownTimer.format_time 3661 = "01:01:01"
    ∧ CountdownTimer.format_time 360000 = "100:00:00" := by
  refine ⟨?_, by decide, by decide, by decide, by decide⟩
  intro n
  exact ⟨n / 3600, n % 3600 / 60, n % 60, by omega, by omega, by omega, rfl⟩

/-- Witness for C5's amended theorem: the two-digit rendering of a
minutes value below sixty, evaluated at 59. -/
theorem format_time_spec_witness : (pad2 59).length = 2 :=
  format_time_spec.2.1 59 (by decide)

/-- C6 counterexample: generate_progress_bar does not clamp the filled
cell count; at percent 200 and width 20 the bar holds 40 glyph
characters, not 20. -/
theorem progress_bar_counterexample :
    (progressBarCells 200 20).length = 40 ∧ (40 : Nat) ≠ 20 := by
  constructor
  · norm_num [progressBarCells, pyInt, ratFloor]; decide
  · decide

/-- C6 (amended): generate_progress_bar computes
filled = int(percent * width / 100) WITHOUT clamping, so the bar holds
exactly width glyph characters only when the percent lies in [0, 100]
(above 100 extra filled glyphs appear, below 0 extra empty ones); the
appended text always shows the true percent to one decimal, and
generate_progress_bar 50 20 yields 10 filled and 10 empty glyphs
followed by "50.0%". -/
theorem progress_bar_spec :
    (∀ (p : ℚ) (w : Int), 0 ≤ w → 0 ≤ p → p ≤ 100 →
      (progressBarCells p w).length = w.toNat)
    ∧ generate_progress_bar 50 20 = "[##########..........] 50.0%"
    ∧ (progressBarCells 200 20).length = 40 := by
  refine ⟨?_,
    by norm_num [generate_progress_bar, progressBarCells, pyInt, ratFloor, fmt1]; decide,
    by norm_num [progressBarCells, pyInt, ratFloor]; decide⟩
  intro p w hw h0 h1
  unfold progressBarCells pyInt
  have hw0 : (0 : ℚ) ≤ (w : ℚ) := by exact_mod_cast hw
  have hq0 : (0 : ℚ) ≤ p * (w : ℚ) / 100 :=
    div_nonneg (mul_nonneg h0 hw0) (by norm_num)
  rw [if_pos hq0]
  have hfl : ratFloor (p * (w : ℚ) / 100) = ⌊p * (w : ℚ) / 100⌋ :=
    Rat.floor_def.symm
  have hfl0 : 0 ≤ ⌊p * (w : ℚ) / 100⌋ := Int.floor_nonneg.mpr hq0
  have hqw : p * (w : ℚ) / 100 ≤ (w : ℚ) := by
    rw [div_le_iff₀ (by norm_num : (0:ℚ) < 100)]
    nlinarith
  have hflw : ⌊p * (w : ℚ) / 100⌋ ≤ w := by
    have h := Int.floor_le_floor hqw
    simpa using h
  simp only [List.length_append, List.length_replicate, hfl]
  omega

/-- Witness for C6's amended theorem: the in-range bound evaluated at
percent 50, width 20. -/
theorem progress_bar_spec_witness : (progressBarCells 50 (20 : Int)).length = 20 :=
  progress_bar_spec.1 50 20 (by norm_num) (by norm_num) (by norm_num)

/-- C7 counterexample: load_sessions uses dict.setdefault, which only
fills ABSENT keys; a composer stored as the empty string (falsy) is
returned unchanged, not replaced by "Unknown", and a work stored as
null likewise survives. -/
theorem load_sessions_counterexample :
    (load_sessions (some [{ composer := .str "", work := .null }])).map
        SessionRec.composer = [SField.str ""]
    ∧ (load_sessions (some [{ composer := .str "", work := .null }])).map
        SessionRec.work = [SField.null]
    ∧ SField.str "" ≠ SField.str "Unknown"
    ∧ SField.null ≠ SField.str "Unknown" := by
  refine ⟨?_, ?_, by decide, by decide⟩ <;>
    simp [load_sessions, normalizeLoaded, SField.setdefault]

/-- C7 (amended): every record returned by load_sessions has composer,
work and movement set to "Unknown" and notes set to "" exactly when the
corresponding key was ABSENT in the stored record (dict.setdefault);
present values, including the falsy empty string and null, are kept
unchanged, and all other fields pass through untouched. -/
theorem load_sessions_spec :
    ∀ (data : List SessionRec) (r : SessionRec),
      r ∈ load_sessions (some data) →
      ∃ o ∈ data,
        r.composer = (if o.composer = .absent then .str "Unknown" else o.composer)
        ∧ r.work = (if o.work = .absent then .str "Unknown" else o.work)
        ∧ r.movement = (if o.movement = .absent then .str "Unknown" else o.movement)
        ∧ r.notes = (if o.notes = .absent then .str "" else o.notes)
        ∧ r.date = o.date ∧ r.duration = o.duration
        ∧ r.start_time = o.start_time ∧ r.end_time = o.end_time
        ∧ r.week = o.week ∧ r.month = o.month ∧ r.year = o.year := by
  intro data r hr
  rw [load_sessions] at hr
  obtain ⟨o, ho, rfl⟩ := List.mem_map.mp hr
  refine ⟨o, ho, ?_⟩
  simp [normalizeLoaded, SField.setdefault_eq_ite]

/-- Witness for C7's amended theorem: a stored record with an absent
composer and an empty-string work, run through load_sessions. -/
theorem load_sessions_spec_witness :
    ∃ o ∈ [({ work := .str "" } : SessionRec)],
      (normalizeLoaded { work := .str "" }).composer
        = (if o.composer = .absent then .str "Unknown" else o.composer)
      ∧ (normalizeLoaded { work := .str "" }).work
        = (if o.work = .absent then .str "Unknown" else o.work)
      ∧ (normalizeLoaded { work := .str "" }).movement
        = (if o.movement = .absent then .str "Unknown" else o.movement)
      ∧ (normalizeLoaded { work := .str "" }).notes
        = (if o.notes = .absent then .str "" else o.notes)
      ∧ (normalizeLoaded { work := .str "" }).date = o.date
      ∧ (normalizeLoaded { work := .str "" }).duration = o.duration
      ∧ (normalizeLoaded { work := .str "" }).start_time = o.start_time
      ∧ (normalizeLoaded { work := .str "" }).end_time = o.end_time
      ∧ (normalizeLoaded { work := .str "" }).week = o.week
      ∧ (normalizeLoaded { work := .str "" }).month = o.month
      ∧ (normalizeLoaded { work := .str "" }).year = o.year :=
  load_sessions_spec [{ work := .str "" }] (normalizeLoaded { work := .str "" })
    (by simp [load_sessions])

/-- C4: when a session's "date" entry does not parse as YYYY-MM-DD
(absent, None, or an unparseable string), save_session leaves the
in-memory session collection unchanged and writes nothing to the
backing file; the embedding is total, mirroring that the bare
except-clause lets no exception propagate. -/
theorem save_session_bad_date_noop :
    ∀ (sessions : List SessionRec) (session : SessionRec),
      dateParses session = false →
      (save_session sessions session).sessions = sessions
      ∧ (save_session sessions session).wrote = none := by
  intro sessions session h
  unfold dateParses at h
  unfold save_session
  cases hd : session.date with
  | absent => simp [hd]
  | null => simp [hd]
  | str ds =>
    rw [hd] at h
    simp only [Option.isSome] at h
    cases hp : parseDate ds with
    | none => simp [hd, hp]
    | some d => rw [hp] at h; simp at h

/-- Witness for C4: a session whose date field is the unparseable
string "not-a-date". -/
theorem save_session_bad_date_noop_witness :
    (save_session [] { date := .str "not-a-date" }).sessions = []
    ∧ (save_session [] { date := .str "not-a-date" }).wrote = none :=
  save_session_bad_date_noop [] { date := .str "not-a-date" } (by decide)

/-- C9: with an injected time source, PracticeTimer.start is a no-op
while running and stop is a no-op while idle; get_total_time reads the
state without changing it; a start/stop cycle of length d adds exactly
d to the reading from any idle state (so accumulation persists across
cycles); while running, the reading is the accumulator plus the current
interval; reset returns the reading to 0; and the concrete trace
start at 0, stop at 2, read 2, start again at 2, read at 3 gives 3,
zeroed by reset. -/
theorem practice_timer_spec :
    (∀ (t : PracticeTimer) (now : ℚ), t.running = true → t.start now = t)
    ∧ (∀ (t : PracticeTimer) (now : ℚ), t.running = false → t.stop now = t)
    ∧ (∀ (t : PracticeTimer) (now : ℚ), (t.get_total_time_state now).2 = t)
    ∧ (∀ (t : PracticeTimer) (s d now : ℚ), t.running = false →
        ((t.start s).stop (s + d)).get_total_time now
          = t.get_total_time now + d)
    ∧ (∀ (t : PracticeTimer) (s d : ℚ), t.running = false →
        (t.start s).get_total_time (s + d) = t.get_total_time s + d)
    ∧ (∀ (t : PracticeTimer) (now : ℚ), (t.reset).get_total_time now = 0)
    ∧ PracticeTimer.get_total_time 2
        (PracticeTimer.stop 2 (PracticeTimer.start 0 PracticeTimer.init)) = 2
    ∧ PracticeTimer.get_total_time 3
        (PracticeTimer.start 2
          (PracticeTimer.stop 2 (PracticeTimer.start 0 PracticeTimer.init))) = 3
    ∧ PracticeTimer.get_total_time 5
        (PracticeTimer.reset
          (PracticeTimer.start 2
            (PracticeTimer.stop 2 (PracticeTimer.start 0 PracticeTimer.init)))) = 0 := by
  refine ⟨?_, ?_, ?_, ?_, ?_, ?_, ?_, ?_, ?_⟩
  · intro t now h
    simp [PracticeTimer.start, h]
  · intro t now h
    simp [PracticeTimer.stop, h]
  · intro t now
    rfl
  · intro t s d now h
    simp [PracticeTimer.start, PracticeTimer.stop, PracticeTimer.get_total_time, h]
  · intro t s d h
    simp [PracticeTimer.start, PracticeTimer.get_total_time, h]
  · intro t now
    simp [PracticeTimer.reset, PracticeTimer.get_total_time]
  · norm_num [PracticeTimer.init, PracticeTimer.start, PracticeTimer.stop,
      PracticeTimer.get_total_time]
  · norm_num [PracticeTimer.init, PracticeTimer.start, PracticeTimer.stop,
      PracticeTimer.get_total_time]
  · norm_num [PracticeTimer.init, PracticeTimer.start, PracticeTimer.stop,
      PracticeTimer.reset, PracticeTimer.get_total_time]

/-- Witness for C9: the one-cycle accumulation conjunct applied to the
freshly initialized timer, started at 0 and stopped at 2. -/
theorem practice_timer_spec_witness :
    ((PracticeTimer.init.start 0).stop (0 + 2)).get_total_time 7
      = PracticeTimer.init.get_total_time 7 + 2 :=
  practice_timer_spec.2.2.2.1 PracticeTimer.init 0 2 7 rfl

/-- C2 counterexample: the weekly window is the signed comparison
(now - date) <= 7 days with NO lower bound, so a session dated
2024-01-09 — one day AFTER now = 2024-01-08 — is kept by the filter
even though it is not within 7 days before now. -/
theorem filter_by_period_counterexample :
    ¬ (periodPred "weekly" ⟨2024, 1, 8⟩ ⟨⟨2024, 1, 9⟩, 1⟩ = true ↔
        withinDaysBefore 7 ⟨2024, 1, 8⟩ ⟨2024, 1, 9⟩) := by
  decide

/-- C2 (amended): the daily filter keeps exactly the sessions whose
date equals now's calendar date; the weekly/monthly/yearly filters keep
exactly the sessions whose signed day difference (now - date) is at
most 7/30/365 — with no lower bound, so sessions dated after now also
qualify.  On the backward side the bounds are as claimed: with
now = 2024-01-08, a session dated 2024-01-01 is kept by the weekly
filter and one dated 2023-12-31 is excluded. -/
theorem filter_by_period_spec :
    ∀ (sessions : List StatSession) (now : Date) (s : StatSession),
      (s ∈ validSessions sessions "daily" now ↔ s ∈ sessions ∧ s.date = now)
      ∧ (s ∈ validSessions sessions "weekly" now ↔
          s ∈ sessions ∧ now.sub s.date ≤ 7)
      ∧ (s ∈ validSessions sessions "monthly" now ↔
          s ∈ sessions ∧ now.sub s.date ≤ 30)
      ∧ (s ∈ validSessions sessions "yearly" now ↔
          s ∈ sessions ∧ now.sub s.date ≤ 365)
      ∧ (⟨⟨2024, 1, 1⟩, 5⟩ ∈ validSessions
            [⟨⟨2024, 1, 1⟩, 5⟩, ⟨⟨2023, 12, 31⟩, 5⟩] "weekly" ⟨2024, 1, 8⟩
          ∧ ⟨⟨2023, 12, 31⟩, 5⟩ ∉ validSessions
            [⟨⟨2024, 1, 1⟩, 5⟩, ⟨⟨2023, 12, 31⟩, 5⟩] "weekly" ⟨2024, 1, 8⟩) := by
  intro sessions now s
  refine ⟨?_, ?_, ?_, ?_, by decide, by decide⟩ <;>
    simp [validSessions, List.mem_filter, periodPred]

/-- C10: for the weekly, monthly and yearly period kinds the filtering
step of calculate_period_stats keeps every future-dated session (date
strictly later than now), because the signed difference now - date is
negative and hence within the window; only the daily kind excludes a
future-dated session. -/
theorem future_dated_sessions_spec
    (sessions : List StatSession) (now : Date) (s : StatSession)
    (hmem : s ∈ sessions)
    (hfut : (now.toOrdinal : Int) < (s.date.toOrdinal : Int)) :
    s ∈ validSessions sessions "weekly" now
    ∧ s ∈ validSessions sessions "monthly" now
    ∧ s ∈ validSessions sessions "yearly" now
    ∧ s ∉ validSessions sessions "daily" now := by
  have hsub : now.sub s.date < 0 := by
    unfold Date.sub
    omega
  refine ⟨?_, ?_, ?_, ?_⟩ <;>
    simp [validSessions, List.mem_filter, periodPred, hmem]
  · omega
  · omega
  · omega
  · intro hdate
    rw [hdate] at hfut
    omega

/-- Witness for C10: a single session dated 2024-01-09 with
now = 2024-01-08. -/
theorem future_dated_sessions_spec_witness :
    ⟨⟨2024, 1, 9⟩, 1⟩ ∈ validSessions [⟨⟨2024, 1, 9⟩, 1⟩] "weekly" ⟨2024, 1, 8⟩
    ∧ ⟨⟨2024, 1, 9⟩, 1⟩ ∈ validSessions [⟨⟨2024, 1, 9⟩, 1⟩] "monthly" ⟨2024, 1, 8⟩
    ∧ ⟨⟨2024, 1, 9⟩, 1⟩ ∈ validSessions [⟨⟨2024, 1, 9⟩, 1⟩] "yearly" ⟨2024, 1, 8⟩
    ∧ ⟨⟨2024, 1, 9⟩, 1⟩ ∉ validSessions [⟨⟨2024, 1, 9⟩, 1⟩] "daily" ⟨2024, 1, 8⟩ :=
  future_dated_sessions_spec [⟨⟨2024, 1, 9⟩, 1⟩] ⟨2024, 1, 8⟩ ⟨⟨2024, 1, 9⟩, 1⟩
    (by decide) (by decide)

/-- C8 counterexample: calculate_streak sorts the collection it is
given in place (sessions.sort(..., reverse=True)); handed two sessions
in ascending date order, the collection afterwards is in descending
order, not element-for-element equal to the input. -/
theorem calculate_streak_mutates :
    (calculate_streak [⟨⟨2024, 1, 1⟩, 1⟩, ⟨⟨2024, 1, 2⟩, 2⟩]).2
      ≠ [⟨⟨2024, 1, 1⟩, 1⟩, ⟨⟨2024, 1, 2⟩, 2⟩] := by
  decide

/-- C8 (amended): calculate_streak reorders the collection in place
(descending by date) but preserves its elements: the collection after
the call is a permutation of the collection before. -/
theorem calculate_streak_perm :
    ∀ l : List StatSession, ((calculate_streak l).2).Perm l := by
  intro l
  have hp : (sortByDateDesc l).Perm l := List.perm_insertionSort sessionGe l
  unfold calculate_streak
  cases h : sortByDateDesc l with
  | nil =>
    rw [h] at hp
    have hnil : l = [] := hp.symm.eq_nil
    simp [hnil]
  | cons f rest =>
    rw [h] at hp
    simpa using hp

/-- C1: calculate_streak returns 0 for an empty collection; otherwise
it walks dates from most recent backwards, skipping same-day repeats
and stopping at the first gap of more than one day, returning the
single-day advances plus one: for sessions dated T, T-1, T-2 (given in
ascending order, with or without a same-day repeat of T-1) it returns
3, for sessions dated T and T-2 it returns 1, and any non-empty
collection yields at least 1. -/
theorem calculate_streak_spec
    (a b c : Date) (da db db2 dc : ℚ)
    (hab : dateKeyLe a b = false) (hbc : dateKeyLe b c = false)
    (hac : dateKeyLe a c = false)
    (oab : (a.toOrdinal : Int) = (b.toOrdinal : Int) + 1)
    (obc : (b.toOrdinal : Int) = (c.toOrdinal : Int) + 1) :
    (calculate_streak []).1 = 0
    ∧ (calculate_streak [⟨c, dc⟩, ⟨b, db⟩, ⟨a, da⟩]).1 = 3
    ∧ (calculate_streak [⟨c, dc⟩, ⟨b, db2⟩, ⟨b, db⟩, ⟨a, da⟩]).1 = 3
    ∧ (calculate_streak [⟨c, dc⟩, ⟨a, da⟩]).1 = 1
    ∧ (∀ l : List StatSession, l ≠ [] → 1 ≤ (calculate_streak l).1) := by
  have sab : (a.toOrdinal : Int) - (b.toOrdinal : Int) = 1 := by omega
  have sbc : (b.toOrdinal : Int) - (c.toOrdinal : Int) = 1 := by omega
  have sac : (a.toOrdinal : Int) - (c.toOrdinal : Int) = 2 := by omega
  refine ⟨rfl, ?_, ?_, ?_, ?_⟩
  · have hsort : sortByDateDesc [⟨c, dc⟩, ⟨b, db⟩, ⟨a, da⟩]
        = [⟨a, da⟩, ⟨b, db⟩, ⟨c, dc⟩] := by
      simp [sortByDateDesc, List.insertionSort, List.orderedInsert,
        sessionGe, hab, hbc, hac]
    unfold calculate_streak
    rw [hsort]
    simp [streakLoop, sab, sbc, sub_self]
  · have hsort : sortByDateDesc [⟨c, dc⟩, ⟨b, db2⟩, ⟨b, db⟩, ⟨a, da⟩]
        = [⟨a, da⟩, ⟨b, db2⟩, ⟨b, db⟩, ⟨c, dc⟩] := by
      simp [sortByDateDesc, List.insertionSort, List.orderedInsert,
        sessionGe, hab, hbc, hac, dateKeyLe_refl]
    unfold calculate_streak
    rw [hsort]
    simp [streakLoop, sab, sbc, sub_self]
  · have hsort : sortByDateDesc [⟨c, dc⟩, ⟨a, da⟩] = [⟨a, da⟩, ⟨c, dc⟩] := by
      simp [sortByDateDesc, List.insertionSort, List.orderedInsert,
        sessionGe, hac]
    unfold calculate_streak
    rw [hsort]
    simp [streakLoop, sac, sub_self]
  · intro l hl
    unfold calculate_streak
    cases h : sortByDateDesc l with
    | nil =>
      have hp : (sortByDateDesc l).Perm l := List.perm_insertionSort sessionGe l
      rw [h] at hp
      exact absurd hp.symm.eq_nil hl
    | cons f rest => simp

/-- Witness for C1: the consecutive dates 2024-02-28, 2024-02-29
(leap day), 2024-03-01; the streak over all three is 3. -/
theorem calculate_streak_spec_witness :
    (calculate_streak
      [⟨⟨2024, 2, 28⟩, 4⟩, ⟨⟨2024, 2, 29⟩, 2⟩, ⟨⟨2024, 3, 1⟩, 1⟩]).1 = 3 :=
  (calculate_streak_spec ⟨2024, 3, 1⟩ ⟨2024, 2, 29⟩ ⟨2024, 2, 28⟩ 1 2 3 4
    (by decide) (by decide) (by decide) (by decide) (by decide)).2.1
